import Mathlib

/-
Verification development for the currency_converter repository.

The definitions below are a shallow embedding of src/server.py (with the
outbound rate provider of src/oxr_client.py abstracted as a behaviour
parameter).  Conventions of the embedding:

* Socket lines are modelled as the iso-8859-1 decoded strings that
  rfile.readline would produce; since iso-8859-1 decodes one byte to one
  character, the byte length of a raw line equals the length of its
  decoded string.  A stream is the list of lines readline yields; at end
  of stream readline yields the empty string, exactly as a closed socket
  does.
* Numeric values (amounts, exchange rates) are modelled as exact
  rationals; PyFloat additionally carries the inf and nan points of the
  Python float type.  No claim under proof depends on IEEE rounding.
* Python exceptions are modelled by the PyExc type and fallible code
  returns Except PyExc.
* email.parser header parsing follows the compat32 feed parser: header
  collection keeps the longest prefix of lines matching headerRE and
  everything after the first non-matching line belongs to the body;
  continuation lines extend the pending header; header_source_parse
  strips only leading spaces and tabs from the value and only trailing
  newline characters from its end.  The theorems hypothesize lines with
  no interior newline characters, where re-splitting the joined block
  is the identity.  Lookup is case-insensitive and returns the first
  match, as email.message.Message.get does.
* urlparse is modelled for origin-form request targets (no scheme and no
  netloc component), including the params split that urlparse performs on
  the last path segment.
-/

def MAX_LINE : Nat := 64 * 1024

def MAX_HEADERS : Nat := 100

/-- Model of Python str.isspace for the ASCII whitespace characters,
used by str.split() and str.strip(). -/
def pyIsSpace (c : Char) : Bool :=
  c = ' ' || c = '\t' || c = '\n' || c = '\r' || c = '\x0b' || c = '\x0c'

/-- Accumulator loop of Python str.split() with no separator argument:
runs of whitespace separate tokens, leading and trailing whitespace is
dropped. -/
def pySplitAux : List Char → List Char → List (List Char)
  | [], cur => if cur = [] then [] else [cur.reverse]
  | c :: cs, cur =>
      if pyIsSpace c then
        if cur = [] then pySplitAux cs []
        else cur.reverse :: pySplitAux cs []
      else pySplitAux cs (c :: cur)

/-- Model of Python str.split() with no argument. -/
def pySplit (s : String) : List String :=
  (pySplitAux s.data []).map String.mk

/-- Model of Python str.strip() on a character list. -/
def pyStripChars (l : List Char) : List Char :=
  ((l.dropWhile pyIsSpace).reverse.dropWhile pyIsSpace).reverse

/-- Split a character list at the first occurrence of a character;
none when the character does not occur. -/
def splitOnceChar (c : Char) : List Char → Option (List Char × List Char)
  | [] => none
  | x :: xs =>
      if x = c then some ([], xs)
      else
        match splitOnceChar c xs with
        | some (a, b) => some (x :: a, b)
        | none => none

/-- Split a character list around the last occurrence of a character:
the part strictly before it and the part strictly after it. -/
def splitAtLastChar (c : Char) (l : List Char) : Option (List Char × List Char) :=
  match splitOnceChar c l.reverse with
  | some (a, b) => some (b.reverse, a.reverse)
  | none => none

/-- Model of the Python substring test (the in operator on str). -/
def containsSub (needle : List Char) : List Char → Bool
  | [] => needle.isPrefixOf []
  | c :: rest => needle.isPrefixOf (c :: rest) || containsSub needle rest

/-- The in operator on Python strings. -/
def pyIn (needle hay : String) : Bool :=
  containsSub needle.data hay.data

/-- str.startswith on the path. -/
def pyStartsWith (p s : String) : Bool :=
  p.data.isPrefixOf s.data

/-- str.lower restricted to the ASCII case mapping, for the
case-insensitive header lookup of email.message.Message. -/
def lowerStr (s : String) : String :=
  String.mk (s.data.map Char.toLower)

def pyIsDigit (c : Char) : Bool :=
  '0' ≤ c && c ≤ '9'

def digitVal (c : Char) : Nat :=
  c.toNat - '0'.toNat

def takeDigits (l : List Char) : List Char × List Char :=
  (l.takeWhile pyIsDigit, l.dropWhile pyIsDigit)

def digitsVal (ds : List Char) : Nat :=
  ds.foldl (fun a c => a * 10 + digitVal c) 0

/-- Python float() accepts an underscore only when it stands between two
digits.  This predicate rejects every other placement. -/
def noBadUnderscore : List Char → Bool
  | [] => true
  | '_' :: _ => false
  | a :: '_' :: b :: rest => pyIsDigit a && pyIsDigit b && noBadUnderscore (b :: rest)
  | _ :: '_' :: [] => false
  | _ :: rest => noBadUnderscore rest

/-- Python float values: exact rationals for the finite points plus the
infinities and nan. -/
inductive PyFloat where
  | finite (q : ℚ)
  | inf
  | ninf
  | nan
deriving DecidableEq, Repr

/-- Core of the Python float() grammar after whitespace stripping and
underscore removal: optional sign, then inf and nan forms or a decimal
mantissa with an optional exponent. -/
def pyParseFloatCore (l : List Char) : Option PyFloat :=
  let (neg, l1) :=
    match l with
    | '+' :: r => (false, r)
    | '-' :: r => (true, r)
    | r => (false, r)
  let low := l1.map Char.toLower
  if low = "inf".data || low = "infinity".data then
    some (if neg then PyFloat.ninf else PyFloat.inf)
  else if low = "nan".data then some PyFloat.nan
  else
    let (ip, r1) := takeDigits l1
    let (fp, r2) :=
      match r1 with
      | '.' :: r =>
          let (f, r') := takeDigits r
          (some f, r')
      | r => (none, r)
    if ip = [] && fp.getD [] = [] && fp.isNone then none
    else if ip = [] && fp.getD [] = [] then none
    else
      let mant : ℚ := (digitsVal ip : ℚ) + (digitsVal (fp.getD []) : ℚ) / ((10 : ℚ) ^ (fp.getD []).length)
      let signed : ℚ := if neg then -mant else mant
      match r2 with
      | [] => some (PyFloat.finite signed)
      | e :: r3 =>
          if e = 'e' || e = 'E' then
            let (eneg, r4) :=
              match r3 with
              | '+' :: r => (false, r)
              | '-' :: r => (true, r)
              | r => (false, r)
            let (ed, r5) := takeDigits r4
            if ed = [] || r5 ≠ [] then none
            else
              let ex : ℤ := if eneg then -(digitsVal ed : ℤ) else (digitsVal ed : ℤ)
              some (PyFloat.finite (signed * (10 : ℚ) ^ ex))
          else none

/-- Model of Python float(str): strip whitespace, validate underscores,
then parse with the float grammar. -/
def pyParseFloat (s : String) : Option PyFloat :=
  let l := pyStripChars s.data
  if l = [] then none
  else if noBadUnderscore l then pyParseFloatCore (l.filter (fun c => c ≠ '_'))
  else none

/-- Multiplication of a finite rate by a Python float, as the handler
computes rate times amount. -/
def pyFloatMul (r : ℚ) : PyFloat → PyFloat
  | PyFloat.finite q => PyFloat.finite (r * q)
  | PyFloat.inf => if r > 0 then PyFloat.inf else if r < 0 then PyFloat.ninf else PyFloat.nan
  | PyFloat.ninf => if r > 0 then PyFloat.ninf else if r < 0 then PyFloat.inf else PyFloat.nan
  | PyFloat.nan => PyFloat.nan

def padZeros (s : String) (k : Nat) : String :=
  String.mk (List.replicate (k - s.length) '0') ++ s

/-- Decimal rendering of a finite float value, as repr(float) renders the
exact decimal values that arise in this development: integers gain a
trailing .0 and other decimals print their fractional digits. -/
def decimalRepr (q : ℚ) : String :=
  if q.den = 1 then toString q.num ++ ".0"
  else
    match (List.range 60).find? (fun k => (q * (10 : ℚ) ^ (k + 1)).den = 1) with
    | some k0 =>
        let k := k0 + 1
        let n := (q * (10 : ℚ) ^ k).num
        let sign := if n < 0 then "-" else ""
        let m := n.natAbs
        sign ++ toString (m / 10 ^ k) ++ "." ++ padZeros (toString (m % 10 ^ k)) k
    | none => toString q.num ++ "/" ++ toString q.den

/-- Rendering of a Python float by json.dumps. -/
def pyFloatRepr : PyFloat → String
  | PyFloat.finite q => decimalRepr q
  | PyFloat.inf => "Infinity"
  | PyFloat.ninf => "-Infinity"
  | PyFloat.nan => "NaN"

def hexDigit (n : Nat) : Char :=
  if n < 10 then Char.ofNat ('0'.toNat + n) else Char.ofNat ('a'.toNat + n - 10)

def jsonEscapeChar (c : Char) : String :=
  if c = '"' then "\\\""
  else if c = '\\' then "\\\\"
  else if c = '\n' then "\\n"
  else if c = '\t' then "\\t"
  else if c = '\r' then "\\r"
  else if c.toNat < 32 then "\\u00" ++ String.mk [hexDigit (c.toNat / 16), hexDigit (c.toNat % 16)]
  else String.singleton c

def jsonEscape (s : String) : String :=
  String.join (s.data.map jsonEscapeChar)

def jsonStr (s : String) : String :=
  "\"" ++ jsonEscape s ++ "\""

/-- JSON values occurring in the convert response body. -/
inductive JVal where
  | jint (n : ℤ)
  | jnum (f : PyFloat)
  | jstr (s : String)
deriving DecidableEq, Repr

def renderJVal : JVal → String
  | JVal.jint n => toString n
  | JVal.jnum f => pyFloatRepr f
  | JVal.jstr s => jsonStr s

/-- Model of json.dumps on a dict with string keys, using the default
separators of json.dumps and the insertion order of the dict. -/
def jsonDumps (obj : List (String × JVal)) : String :=
  "\x7b" ++ String.intercalate ", " (obj.map (fun p => jsonStr p.1 ++ ": " ++ renderJVal p.2)) ++ "\x7d"

/-- Components produced by urlparse. -/
structure UrlParts where
  path : String
  params : String
  query : String
  fragment : String
deriving DecidableEq, Repr

/-- The params split urlparse performs on the path: only a semicolon in
the last path segment starts the params component. -/
def pySplitParams (l : List Char) : List Char × List Char :=
  if l.contains ';' then
    if l.contains '/' then
      match splitAtLastChar '/' l with
      | some (pre, seg) =>
          match splitOnceChar ';' seg with
          | some (a, b) => (pre ++ '/' :: a, b)
          | none => (l, [])
      | none => (l, [])
    else
      match splitOnceChar ';' l with
      | some (a, b) => (a, b)
      | none => (l, [])
  else (l, [])

/-- Model of urllib.parse.urlparse on an origin-form request target:
fragment split at the first hash, then query split at the first question
mark, then the params split on the remaining path. -/
def pyUrlparse (target : String) : UrlParts :=
  let cs := target.data
  let (r1, frag) :=
    match splitOnceChar '#' cs with
    | some (a, b) => (a, b)
    | none => (cs, [])
  let (r2, query) :=
    match splitOnceChar '?' r1 with
    | some (a, b) => (a, b)
    | none => (r1, [])
  let (p, params) := pySplitParams r2
  ⟨String.mk p, String.mk params, String.mk query, String.mk frag⟩

/-- The HTTPError exception class of server.py. -/
structure HTTPError where
  status : Nat
  reason : String
  body : Option String
deriving DecidableEq, Repr

/-- The Python exceptions that can cross a stage boundary of the
per-connection pipeline. -/
inductive PyExc where
  | http (e : HTTPError)
  | typeError (msg : String)
  | stopIteration
  | oxrError (msg : String)
  | unboundLocal (name : String)
deriving DecidableEq, Repr

def httpErr (status : Nat) (reason : String) (body : Option String) : PyExc :=
  PyExc.http ⟨status, reason, body⟩

/-- Whether an exception carries the status, reason and body attributes
that the try block of send_error reads. -/
def PyExc.isHttp : PyExc → Bool
  | PyExc.http _ => true
  | _ => false

/-- The Request class of server.py (the read stream handle is tracked by
the connection model, not stored here). -/
structure Request where
  method : String
  target : String
  version : String
  headers : List (String × String)
deriving DecidableEq, Repr

/-- Header values are strings or, for Content-Length, the Python int the
code places in the tuple. -/
inductive HVal where
  | s (v : String)
  | n (v : Nat)
deriving DecidableEq, Repr

/-- A reason phrase is normally a str; the fallback branch of send_error
stores a bytes object instead. -/
inductive ReasonV where
  | str (v : String)
  | bytes (v : String)
deriving DecidableEq, Repr

/-- The Response class of server.py; headers and body default to None. -/
structure Response where
  status : Nat
  reason : ReasonV
  headers : Option (List (String × HVal))
  body : Option String
deriving DecidableEq, Repr

/-- Server configuration: the server name and port used for Host header
validation. -/
structure Cfg where
  serverName : String
  port : Nat
deriving DecidableEq, Repr

/-- rfile.readline(MAX_LINE + 1): the next line truncated to
MAX_LINE + 1 characters; the empty string at end of stream. -/
def readLine : List String → String × List String
  | [] => ("", [])
  | l :: rest => (String.mk (l.data.take (MAX_LINE + 1)), rest)

/-- HTTPServer.parse_request_line. -/
def parse_request_line (stream : List String) : Except PyExc ((String × String × String) × List String) :=
  let (raw, rest) := readLine stream
  if raw.length > MAX_LINE then
    Except.error (httpErr 400 "Bad request" (some "Request line is too long"))
  else
    match pySplit raw with
    | [m, t, v] =>
        if v ≠ "HTTP/1.1" then Except.error (httpErr 505 "HTTP Version Not Supported" none)
        else Except.ok ((m, t, v), rest)
    | _ => Except.error (httpErr 400 "Bad request" (some "Malformed request line"))

/-- The header collection loop of HTTPServer.parse_headers: read lines
until a terminator, enforcing the line length bound and the header count
bound in the order the code checks them. -/
def collectHeaderLines : List String → List String → Except PyExc (List String × List String)
  | [], acc => Except.ok (acc, [])
  | l :: rest, acc =>
      let raw := String.mk (l.data.take (MAX_LINE + 1))
      if raw.length > MAX_LINE then
        Except.error (httpErr 494 "Request header too large" none)
      else if raw = "\r\n" || raw = "\n" || raw = "" then Except.ok (acc, rest)
      else if acc.length + 1 > MAX_HEADERS then
        Except.error (httpErr 494 "Too many headers" none)
      else collectHeaderLines rest (acc ++ [raw])

/-- ftext characters of RFC 2822, the character class of the header
line regex of email.feedparser: printable US-ASCII except space and
colon. -/
def isFtext (c : Char) : Bool :=
  ('\x21' ≤ c && c ≤ '\x39') || ('\x3b' ≤ c && c ≤ '\x7e')

/-- The headerRE test of email.feedparser: the line starts with From
followed by a space, or with a possibly empty run of ftext characters
followed by a colon, or with a space or tab.  Because a colon is not an
ftext character, the regex alternative matches exactly when the first
non-ftext character of the line is a colon. -/
def matchesHeaderRE (l : List Char) : Bool :=
  ("From " : String).data.isPrefixOf l
  || (match l.dropWhile isFtext with
      | ':' :: _ => true
      | _ => false)
  || (match l with
      | c :: _ => c = ' ' || c = '\t'
      | [] => false)

/-- str.rstrip of carriage returns and line feeds. -/
def rstripCRLF (l : List Char) : List Char :=
  (l.reverse.dropWhile (fun c => c = '\r' || c = '\n')).reverse

/-- header_source_parse of the compat32 policy: the name is everything
before the first colon of the first line, unmodified; the value is the
remainder of the first line with leading spaces and tabs stripped,
joined with the continuation lines verbatim, and only trailing carriage
returns and line feeds are stripped from the end — interior whitespace
and trailing spaces or tabs survive. -/
def header_source_parse (sourcelines : List (List Char)) : String × String :=
  match sourcelines with
  | [] => ("", "")
  | first :: conts =>
      match splitOnceChar ':' first with
      | some (n, v) =>
          (String.mk n,
           String.mk (rstripCRLF ((v.dropWhile (fun c => c = ' ' || c = '\t')) ++ conts.flatten)))
      | none => (String.mk first, "")

/-- The loop of FeedParser._parse_headers of email.feedparser.  A line
starting with space or tab continues the pending header, or is dropped
when no header is pending; any other line first flushes the pending
header, then a From-space line contributes no header in each of its
three cases, a line whose colon sits at position zero is dropped as a
defect, and any other line starts a new pending header.  On the output
of the headerRE filter every line is nonempty and every non-continuation
line contains a colon, so the two remaining cases are unreachable
there. -/
def parseHeadersLoop :
    List (List Char) → List Char → List (List Char) → List (String × String) →
    List (String × String)
  | [], lastheader, lastvalue, acc =>
      if lastheader ≠ [] then acc ++ [header_source_parse lastvalue] else acc
  | line :: rest, lastheader, lastvalue, acc =>
      match line with
      | [] => parseHeadersLoop rest lastheader lastvalue acc
      | c :: _ =>
          if c = ' ' || c = '\t' then
            if lastheader = [] then parseHeadersLoop rest [] [] acc
            else parseHeadersLoop rest lastheader (lastvalue ++ [line]) acc
          else
            let acc2 := if lastheader ≠ [] then acc ++ [header_source_parse lastvalue] else acc
            if ("From " : String).data.isPrefixOf line then
              parseHeadersLoop rest [] [] acc2
            else
              match splitOnceChar ':' line with
              | some ([], _) => parseHeadersLoop rest [] [] acc2
              | some (n, _) => parseHeadersLoop rest n [line] acc2
              | none => parseHeadersLoop rest [] [] acc2

/-- Model of Parser().parsestr on the joined header block.  The feed
parser splits the joined text back into exactly the collected lines
whenever each line ends with a newline and has no interior newline
character — the well-formedness the theorems hypothesize via
singleLine.  It then collects the longest prefix of lines matching
headerRE — everything from the first non-matching line onwards belongs
to the message body and contributes no header — and runs the header
state machine of _parse_headers on that prefix. -/
def parseHeaderBlock (ls : List String) : List (String × String) :=
  parseHeadersLoop ((ls.map String.data).takeWhile matchesHeaderRE) [] [] []

/-- email.message.Message.get: case-insensitive lookup returning the
first matching header value. -/
def headersGet (hs : List (String × String)) (name : String) : Option String :=
  (hs.find? (fun p => lowerStr p.1 = lowerStr name)).map (fun p => p.2)

/-- HTTPServer.parse_headers: collect the raw header lines, then parse
the block into name and value pairs. -/
def parse_headers (stream : List String) : Except PyExc (List (String × String) × List String) :=
  match collectHeaderLines stream [] with
  | Except.error e => Except.error e
  | Except.ok (lines, rest) => Except.ok (parseHeaderBlock lines, rest)

/-- Host validation tail of HTTPServer.parse_request: a falsy Host value
means the header is missing, any value other than the server name with
or without the port suffix is an invalid host. -/
def hostValidate (cfg : Cfg) (m t v : String) (headers : List (String × String)) : Except PyExc Request :=
  match headersGet headers "Host" with
  | none => Except.error (httpErr 400 "Bad request" (some "Host header is missing"))
  | some h =>
      if h = "" then Except.error (httpErr 400 "Bad request" (some "Host header is missing"))
      else if h = cfg.serverName ∨ h = cfg.serverName ++ ":" ++ toString cfg.port then
        Except.ok ⟨m, t, v, headers⟩
      else Except.error (httpErr 404 "Not found" (some "Invalid host"))

/-- HTTPServer.parse_request. -/
def parse_request (cfg : Cfg) (stream : List String) : Except PyExc Request :=
  match parse_request_line stream with
  | Except.error e => Except.error e
  | Except.ok ((m, t, v), rest) =>
      match parse_headers rest with
      | Except.error e => Except.error e
      | Except.ok (headers, _) => hostValidate cfg m t v headers

/-- The decoded response of the rate provider. -/
structure OXRResult where
  base : String
  timestamp : ℤ
  rates : List (String × ℚ)
deriving DecidableEq, Repr

/-- Behaviour of the outbound OXRClient.get_latest call: a decoded
result, or an OXRStatusError or OXRDecodeError transport failure. -/
inductive ProviderBehavior where
  | ok (r : OXRResult)
  | fail (msg : String)
deriving DecidableEq, Repr

/-- HTTPServer.handle_get_convert.  An absent Accept header makes the
Python membership test run on None, raising a TypeError. -/
def handle_get_convert (provider : ProviderBehavior) (req : Request) (amount : PyFloat) :
    Except PyExc Response :=
  match headersGet req.headers "Accept" with
  | none => Except.error (PyExc.typeError "argument of type NoneType is not iterable")
  | some accept =>
      if pyIn "application/json" accept || pyIn "*/*" accept then
        match provider with
        | ProviderBehavior.fail m => Except.error (PyExc.oxrError m)
        | ProviderBehavior.ok res =>
            match res.rates with
            | [] => Except.error PyExc.stopIteration
            | (tc, rate) :: _ =>
                let body := jsonDumps
                  [("timestamp", JVal.jint res.timestamp),
                   ("base_currency", JVal.jstr res.base),
                   ("base_amount", JVal.jnum amount),
                   ("target_currency", JVal.jstr tc),
                   ("target_amount", JVal.jnum (pyFloatMul rate amount))]
                Except.ok ⟨200, ReasonV.str "OK",
                  some [("Content-Type", HVal.s "application/json; charset=utf-8"),
                        ("Content-Length", HVal.n body.utf8ByteSize)],
                  some body⟩
      else Except.ok ⟨406, ReasonV.str "Not Acceptable", none, none⟩

/-- HTTPServer.handle_request: route on the path component of the parsed
target. -/
def handle_request (provider : ProviderBehavior) (req : Request) : Except PyExc Response :=
  let path := (pyUrlparse req.target).path
  if pyStartsWith "/convert/" path ∧ req.method = "GET" then
    let amountStr := String.mk (path.data.drop 9)
    match pyParseFloat amountStr with
    | none => Except.error (httpErr 404 "Bad request" (some "Amount value must be float"))
    | some a => handle_get_convert provider req a
  else Except.error (httpErr 404 "Not found" none)

/-- HTTPServer.send_error: an exception carrying status, reason and body
attributes becomes a response from those fields, with the reason standing
in for an absent or empty body; attribute access on any other exception
fails and the bare except produces the generic 500 response whose reason
is the bytes object the fallback assigns. -/
def send_error (e : PyExc) : Response :=
  match e with
  | PyExc.http err =>
      let body :=
        match err.body with
        | some b => if b = "" then err.reason else b
        | none => err.reason
      ⟨err.status, ReasonV.str err.reason, some [("Content-Length", HVal.n body.utf8ByteSize)], some body⟩
  | _ =>
      ⟨500, ReasonV.bytes "Internal Server Error",
        some [("Content-Length", HVal.n ("Internal Server Error" : String).utf8ByteSize)],
        some "Internal Server Error"⟩

/-- One accepted connection: whether the peer resets during parsing, the
lines the socket yields, and the behaviour of the provider call. -/
structure ConnInput where
  resetDuringParse : Bool
  stream : List String
  provider : ProviderBehavior
deriving DecidableEq, Repr

/-- Observable outcome of serving one connection: the response written,
if any, and whether the read stream and the socket were closed. -/
structure ServeTrace where
  wrote : Option Response
  rfileClosed : Bool
  connClosed : Bool
deriving DecidableEq, Repr

/-- HTTPServer.serve_client.  A ConnectionResetError clears conn, so the
closing block is skipped and nothing is written.  When parse_request
raises, send_error writes the error response, but the closing block then
reads the local variable req, which was never bound, so an
UnboundLocalError escapes before either close call runs.  When handling
raises after a successful parse, the error response is written and both
closes run. -/
def serve_client (cfg : Cfg) (c : ConnInput) : ServeTrace × Option PyExc :=
  if c.resetDuringParse then (⟨none, false, false⟩, none)
  else
    match parse_request cfg c.stream with
    | Except.error e => (⟨some (send_error e), false, false⟩, some (PyExc.unboundLocal "req"))
    | Except.ok req =>
        match handle_request c.provider req with
        | Except.error e => (⟨some (send_error e), true, true⟩, none)
        | Except.ok resp => (⟨some resp, true, true⟩, none)

/-- Accept loop events: a connection served normally, or a connection
whose serving raised an exception that the loop caught and logged. -/
inductive LoopEvent where
  | served (t : ServeTrace)
  | servingFailedLogged (t : ServeTrace) (e : PyExc)
deriving DecidableEq, Repr

/-- One iteration of the accept loop body of HTTPServer.serve_forever:
serve_client runs under a try that catches every Exception. -/
def connEvent (cfg : Cfg) (c : ConnInput) : LoopEvent :=
  match serve_client cfg c with
  | (t, none) => LoopEvent.served t
  | (t, some e) => LoopEvent.servingFailedLogged t e

/-- HTTPServer.serve_forever restricted to a finite schedule of accepted
connections. -/
def serve_forever (cfg : Cfg) : List ConnInput → List LoopEvent
  | [] => []
  | c :: rest => connEvent cfg c :: serve_forever cfg rest

/-- State of the lru_cache-backed url property of Request: the target,
the cached parse result, and how many times urlparse has actually run. -/
structure UrlCacheState where
  target : String
  cache : Option UrlParts
  computeCount : Nat
deriving DecidableEq, Repr

/-- One access of Request.url: return the cached value, or compute,
cache and count one computation. -/
def urlGet (s : UrlCacheState) : UrlParts × UrlCacheState :=
  match s.cache with
  | some u => (u, s)
  | none =>
      let u := pyUrlparse s.target
      (u, ⟨s.target, some u, s.computeCount + 1⟩)

def urlGetIter : Nat → UrlCacheState → UrlCacheState
  | 0, s => s
  | n + 1, s => urlGetIter n (urlGet s).2

def freshUrlState (target : String) : UrlCacheState :=
  ⟨target, none, 0⟩


/-
Helper lemmas about the embedding.
-/

theorem strMk_data (s : String) : String.mk s.data = s := rfl

theorem strData_append (a b : String) : (a ++ b).data = a.data ++ b.data := by
  cases a; cases b; rfl

theorem splitOnceChar_not_mem (c : Char) : ∀ (l : List Char), c ∉ l → splitOnceChar c l = none := by
  intro l
  induction l with
  | nil => intro _; rfl
  | cons x xs ih =>
      intro h
      have hx : ¬ x = c := fun hh => h (by simp [hh])
      simp only [splitOnceChar, if_neg hx, ih (fun hm => h (by simp [hm]))]

theorem splitOnceChar_append (c : Char) : ∀ (l1 l2 : List Char), c ∉ l1 →
    splitOnceChar c (l1 ++ c :: l2) = some (l1, l2) := by
  intro l1
  induction l1 with
  | nil => intro l2 _; simp [splitOnceChar]
  | cons x xs ih =>
      intro l2 h
      have hx : ¬ x = c := fun hh => h (by simp [hh])
      simp only [List.cons_append, List.append_eq, splitOnceChar, if_neg hx,
        ih l2 (fun hm => h (by simp [hm]))]

theorem charListContains_false (c : Char) (l : List Char) (h : c ∉ l) : l.contains c = false := by
  by_contra hc
  rw [Bool.not_eq_false] at hc
  exact h (by simpa using List.elem_iff.mp hc)

theorem isPrefixOf_self_append (l m : List Char) : l.isPrefixOf (l ++ m) = true := by
  induction l with
  | nil => simp
  | cons c cs ih => simp [List.isPrefixOf, ih]

theorem urlGetIter_cached (k : Nat) : ∀ (t : String) (u : UrlParts) (c : Nat),
    urlGetIter k ⟨t, some u, c⟩ = ⟨t, some u, c⟩ := by
  induction k with
  | zero => intro t u c; rfl
  | succ k ih => intro t u c; simp only [urlGetIter, urlGet]; exact ih t u c

/-
Claim theorems.
-/

/-- C1: the spec says a non-numeric amount yields status 400 with the
message that the amount must be a float.  Evaluating the handler on such
a request shows the code instead raises HTTPError with status 404, while
keeping the reason phrase Bad request of a 400 and the body the claim
expects; the Accept header plays no role because the amount check runs
first.  The status is the single point of divergence. -/
theorem C1_nonnumeric_amount_status (prov : ProviderBehavior) (hdrs : List (String × String)) :
    handle_request prov ⟨"GET", "/convert/abc", "HTTP/1.1", hdrs⟩
      = Except.error (PyExc.http ⟨404, "Bad request", some "Amount value must be float"⟩) := rfl

/-- C2 counterexample: a parseable request for /convert/10.5 with no
Accept header at all does not produce the 406 the claim requires; the
handler raises a TypeError and the connection is answered with the
generic 500 response, which moreover carries a body. -/
theorem C2_absent_accept_counterexample :
    serve_client ⟨"example.com", 8080⟩
        ⟨false, ["GET /convert/10.5 HTTP/1.1\r\n", "Host: example.com\r\n", "\r\n"],
          ProviderBehavior.ok ⟨"USD", 1700000000, [("RUB", 90)]⟩⟩
      = (⟨some ⟨500, ReasonV.bytes "Internal Server Error",
            some [("Content-Length", HVal.n 21)], some "Internal Server Error"⟩, true, true⟩,
         none) := rfl

/-- C2 (amended): when the Accept header is present but contains neither
application/json nor the wildcard, the handler returns 406 Not Acceptable
with no body; when the Accept header is absent, the handler instead
raises a TypeError, which send_error converts into the generic 500
response. -/
theorem C2_accept_handling :
    (∀ (prov : ProviderBehavior) (req : Request) (a : PyFloat) (accept : String),
      headersGet req.headers "Accept" = some accept →
      pyIn "application/json" accept = false →
      pyIn "*/*" accept = false →
      handle_get_convert prov req a = Except.ok ⟨406, ReasonV.str "Not Acceptable", none, none⟩)
    ∧ (∀ (prov : ProviderBehavior) (req : Request) (a : PyFloat),
      headersGet req.headers "Accept" = none →
      handle_get_convert prov req a
        = Except.error (PyExc.typeError "argument of type NoneType is not iterable"))
    ∧ send_error (PyExc.typeError "argument of type NoneType is not iterable")
      = ⟨500, ReasonV.bytes "Internal Server Error",
          some [("Content-Length", HVal.n 21)], some "Internal Server Error"⟩ := by
  refine ⟨?_, ?_, rfl⟩
  · intro prov req a accept hacc h1 h2
    simp [handle_get_convert, hacc, h1, h2]
  · intro prov req a hacc
    simp [handle_get_convert, hacc]

theorem C2_accept_handling_witness :
    headersGet [("Accept", "text/html")] "Accept" = some "text/html"
    ∧ pyIn "application/json" "text/html" = false
    ∧ pyIn "*/*" "text/html" = false
    ∧ handle_get_convert (ProviderBehavior.ok ⟨"USD", 1700000000, [("RUB", 90)]⟩)
        ⟨"GET", "/convert/10.5", "HTTP/1.1", [("Accept", "text/html")]⟩ (PyFloat.finite (21 / 2))
      = Except.ok ⟨406, ReasonV.str "Not Acceptable", none, none⟩
    ∧ headersGet ([] : List (String × String)) "Accept" = none
    ∧ handle_get_convert (ProviderBehavior.ok ⟨"USD", 1700000000, [("RUB", 90)]⟩)
        ⟨"GET", "/convert/10.5", "HTTP/1.1", []⟩ (PyFloat.finite (21 / 2))
      = Except.error (PyExc.typeError "argument of type NoneType is not iterable") :=
  ⟨rfl, rfl, rfl,
   C2_accept_handling.1 (ProviderBehavior.ok ⟨"USD", 1700000000, [("RUB", 90)]⟩)
     ⟨"GET", "/convert/10.5", "HTTP/1.1", [("Accept", "text/html")]⟩ (PyFloat.finite (21 / 2))
     "text/html" rfl rfl rfl,
   rfl,
   C2_accept_handling.2.1 (ProviderBehavior.ok ⟨"USD", 1700000000, [("RUB", 90)]⟩)
     ⟨"GET", "/convert/10.5", "HTTP/1.1", []⟩ (PyFloat.finite (21 / 2)) rfl⟩

/-- C4 at its failing input: a connection whose first line is malformed.
The 400 error response is written, but serve_client then hits the unbound
local variable req, so neither the read stream nor the socket is closed
and an UnboundLocalError escapes to the accept loop.  The second
conjunct checks the one part of the claim that does hold: a peer reset
during parsing writes nothing. -/
theorem C4_parse_error_skips_close :
    serve_client ⟨"example.com", 8080⟩ ⟨false, ["BAD\r\n"], ProviderBehavior.ok ⟨"USD", 0, []⟩⟩
      = (⟨some ⟨400, ReasonV.str "Bad request",
            some [("Content-Length", HVal.n 22)], some "Malformed request line"⟩, false, false⟩,
         some (PyExc.unboundLocal "req"))
    ∧ serve_client ⟨"example.com", 8080⟩ ⟨true, ["BAD\r\n"], ProviderBehavior.ok ⟨"USD", 0, []⟩⟩
      = (⟨none, false, false⟩, none) :=
  ⟨rfl, rfl⟩

/-- C8: every failure that does not carry the HTTPError attributes is
mapped by send_error to one constant response: status 500, reason the
bytes Internal Server Error, and the generic body.  Because the result is
a constant, nothing of the specific cause reaches the client. -/
theorem C8_unclassified_500 (e : PyExc) (h : e.isHttp = false) :
    send_error e
      = ⟨500, ReasonV.bytes "Internal Server Error",
          some [("Content-Length", HVal.n 21)], some "Internal Server Error"⟩ := by
  cases e with
  | http err => exact absurd h (by simp [PyExc.isHttp])
  | typeError m => rfl
  | stopIteration => rfl
  | oxrError m => rfl
  | unboundLocal n => rfl

theorem C8_unclassified_500_witness :
    (PyExc.oxrError "urlopen to openexchangerates.org failed").isHttp = false
    ∧ send_error (PyExc.oxrError "urlopen to openexchangerates.org failed")
      = ⟨500, ReasonV.bytes "Internal Server Error",
          some [("Content-Length", HVal.n 21)], some "Internal Server Error"⟩ :=
  ⟨rfl, C8_unclassified_500 (PyExc.oxrError "urlopen to openexchangerates.org failed") rfl⟩

/-- C9: the accept loop produces one event per scheduled connection, and
a connection whose serving raises an exception is logged as failed while
the loop goes on to serve the remaining connections unchanged. -/
theorem C9_accept_loop_survives :
    (∀ (cfg : Cfg) (conns : List ConnInput), (serve_forever cfg conns).length = conns.length)
    ∧ (∀ (cfg : Cfg) (c : ConnInput) (rest : List ConnInput) (tr : ServeTrace) (e : PyExc),
        serve_client cfg c = (tr, some e) →
        serve_forever cfg (c :: rest)
          = LoopEvent.servingFailedLogged tr e :: serve_forever cfg rest) := by
  constructor
  · intro cfg conns
    induction conns with
    | nil => rfl
    | cons c rest ih => simp [serve_forever, ih]
  · intro cfg c rest tr e hc
    simp [serve_forever, connEvent, hc]

theorem C9_accept_loop_survives_witness :
    serve_client ⟨"example.com", 8080⟩ ⟨false, ["NONSENSE\r\n"], ProviderBehavior.ok ⟨"USD", 0, []⟩⟩
      = (⟨some ⟨400, ReasonV.str "Bad request",
            some [("Content-Length", HVal.n 22)], some "Malformed request line"⟩, false, false⟩,
         some (PyExc.unboundLocal "req"))
    ∧ serve_forever ⟨"example.com", 8080⟩
        [⟨false, ["NONSENSE\r\n"], ProviderBehavior.ok ⟨"USD", 0, []⟩⟩,
         ⟨true, [], ProviderBehavior.ok ⟨"USD", 0, []⟩⟩]
      = LoopEvent.servingFailedLogged
          ⟨some ⟨400, ReasonV.str "Bad request",
            some [("Content-Length", HVal.n 22)], some "Malformed request line"⟩, false, false⟩
          (PyExc.unboundLocal "req")
        :: serve_forever ⟨"example.com", 8080⟩ [⟨true, [], ProviderBehavior.ok ⟨"USD", 0, []⟩⟩] :=
  ⟨rfl,
   C9_accept_loop_survives.2 ⟨"example.com", 8080⟩
     ⟨false, ["NONSENSE\r\n"], ProviderBehavior.ok ⟨"USD", 0, []⟩⟩
     [⟨true, [], ProviderBehavior.ok ⟨"USD", 0, []⟩⟩]
     ⟨some ⟨400, ReasonV.str "Bad request",
       some [("Content-Length", HVal.n 22)], some "Malformed request line"⟩, false, false⟩
     (PyExc.unboundLocal "req") rfl⟩

/-- C3: with a numeric amount, an acceptable Accept header, and a
provider result whose rate map holds the single pair (s, r), the handler
returns 200 OK with the JSON body carrying exactly the five keys —
timestamp, base currency, the echoed amount, the resolved symbol, and
the product r * a — plus the JSON content type and a Content-Length
equal to the UTF-8 byte length of the body. -/
theorem C3_convert_success (req : Request) (a : ℚ) (accept b s : String) (ts : ℤ) (r : ℚ)
    (hacc : headersGet req.headers "Accept" = some accept)
    (hok : pyIn "application/json" accept = true ∨ pyIn "*/*" accept = true) :
    handle_get_convert (ProviderBehavior.ok ⟨b, ts, [(s, r)]⟩) req (PyFloat.finite a)
      = Except.ok ⟨200, ReasonV.str "OK",
          some [("Content-Type", HVal.s "application/json; charset=utf-8"),
                ("Content-Length", HVal.n (jsonDumps
                  [("timestamp", JVal.jint ts), ("base_currency", JVal.jstr b),
                   ("base_amount", JVal.jnum (PyFloat.finite a)),
                   ("target_currency", JVal.jstr s),
                   ("target_amount", JVal.jnum (PyFloat.finite (r * a)))]).utf8ByteSize)],
          some (jsonDumps
            [("timestamp", JVal.jint ts), ("base_currency", JVal.jstr b),
             ("base_amount", JVal.jnum (PyFloat.finite a)),
             ("target_currency", JVal.jstr s),
             ("target_amount", JVal.jnum (PyFloat.finite (r * a)))])⟩ := by
  have hcond : (pyIn "application/json" accept || pyIn "*/*" accept) = true := by
    rcases hok with h | h <;> simp [h]
  simp [handle_get_convert, hacc, hcond, pyFloatMul]

theorem C3_convert_success_witness :
    headersGet [("Accept", "application/json")] "Accept" = some "application/json"
    ∧ (pyIn "application/json" "application/json" = true ∨ pyIn "*/*" "application/json" = true)
    ∧ handle_get_convert (ProviderBehavior.ok ⟨"USD", 1700000000, [("RUB", 90)]⟩)
        ⟨"GET", "/convert/10.5", "HTTP/1.1", [("Accept", "application/json")]⟩
        (PyFloat.finite (21 / 2))
      = Except.ok ⟨200, ReasonV.str "OK",
          some [("Content-Type", HVal.s "application/json; charset=utf-8"),
                ("Content-Length", HVal.n (jsonDumps
                  [("timestamp", JVal.jint 1700000000), ("base_currency", JVal.jstr "USD"),
                   ("base_amount", JVal.jnum (PyFloat.finite (21 / 2))),
                   ("target_currency", JVal.jstr "RUB"),
                   ("target_amount", JVal.jnum (PyFloat.finite ((90 : ℚ) * (21 / 2))))]).utf8ByteSize)],
          some (jsonDumps
            [("timestamp", JVal.jint 1700000000), ("base_currency", JVal.jstr "USD"),
             ("base_amount", JVal.jnum (PyFloat.finite (21 / 2))),
             ("target_currency", JVal.jstr "RUB"),
             ("target_amount", JVal.jnum (PyFloat.finite ((90 : ℚ) * (21 / 2))))])⟩ :=
  ⟨rfl, Or.inl rfl,
   C3_convert_success ⟨"GET", "/convert/10.5", "HTTP/1.1", [("Accept", "application/json")]⟩
     (21 / 2) "application/json" "USD" "RUB" 1700000000 90 rfl (Or.inl rfl)⟩

/-- C10: route matching and amount extraction run on the path component
of the parsed target, so a query string is ignored — a GET request for
/convert/n?query with numeric n is dispatched to the convert handler
with amount n — and the url property of a Request computes urlparse
exactly once, every access returning that same parse result. -/
theorem C10_query_ignored_memoized :
    (∀ (prov : ProviderBehavior) (req : Request) (n q : String) (a : PyFloat),
      req.method = "GET" →
      req.target = "/convert/" ++ n ++ "?" ++ q →
      pyParseFloat n = some a →
      '?' ∉ n.data → '#' ∉ n.data → ';' ∉ n.data → '#' ∉ q.data →
      handle_request prov req = handle_get_convert prov req a)
    ∧ (∀ (target : String) (k : Nat),
        (urlGetIter (k + 1) (freshUrlState target)).computeCount = 1
        ∧ (urlGet (urlGetIter k (freshUrlState target))).1 = pyUrlparse target) := by
  constructor
  · intro prov req n q a hmethod htarget hparse hq1 hh1 hs1 hq2
    have hdata : ("/convert/" ++ n ++ "?" ++ q).data
        = (("/convert/" : String).data ++ n.data) ++ ('?' :: q.data) := by
      rw [strData_append, strData_append, strData_append]
      simp [List.append_assoc]
    have hnoHash : '#' ∉ (("/convert/" : String).data ++ n.data) ++ ('?' :: q.data) := by
      simp only [List.mem_append, List.mem_cons, not_or]
      exact ⟨⟨by decide, hh1⟩, by decide, hq2⟩
    have hsplitQ : splitOnceChar '?' ((("/convert/" : String).data ++ n.data) ++ ('?' :: q.data))
        = some (("/convert/" : String).data ++ n.data, q.data) := by
      apply splitOnceChar_append
      simp only [List.mem_append, not_or]
      exact ⟨by decide, hq1⟩
    have hnoSemi : ((("/convert/" : String).data ++ n.data).contains ';') = false := by
      apply charListContains_false
      simp only [List.mem_append, not_or]
      exact ⟨by decide, hs1⟩
    have hurl : pyUrlparse ("/convert/" ++ n ++ "?" ++ q)
        = ⟨String.mk (("/convert/" : String).data ++ n.data), String.mk [],
           String.mk q.data, String.mk []⟩ := by
      simp only [pyUrlparse, hdata, splitOnceChar_not_mem '#' _ hnoHash, hsplitQ,
        pySplitParams, hnoSemi, Bool.false_eq_true, if_false]
    have hpfx : pyStartsWith "/convert/" (String.mk (("/convert/" : String).data ++ n.data)) = true := by
      unfold pyStartsWith
      exact isPrefixOf_self_append _ _
    have hdrop : (String.mk (("/convert/" : String).data ++ n.data)).data.drop 9 = n.data := by
      show (("/convert/" : String).data ++ n.data).drop 9 = n.data
      rw [show (9 : Nat) = ("/convert/" : String).data.length from rfl]
      exact List.drop_left _ _
    unfold handle_request
    rw [htarget, hurl]
    rw [if_pos ⟨hpfx, hmethod⟩]
    rw [hdrop, strMk_data]
    simp only [hparse]
  · intro target k
    constructor
    · show (urlGetIter k (urlGet (freshUrlState target)).2).computeCount = 1
      rw [show (urlGet (freshUrlState target)).2
          = ⟨target, some (pyUrlparse target), 1⟩ from rfl]
      rw [urlGetIter_cached]
    · cases k with
      | zero => rfl
      | succ k =>
          show (urlGet (urlGetIter k (urlGet (freshUrlState target)).2)).1 = pyUrlparse target
          rw [show (urlGet (freshUrlState target)).2
              = ⟨target, some (pyUrlparse target), 1⟩ from rfl]
          rw [urlGetIter_cached]
          rfl

theorem C10_query_ignored_memoized_witness :
    pyParseFloat "10.5" = some (PyFloat.finite (21 / 2))
    ∧ handle_request (ProviderBehavior.ok ⟨"USD", 1700000000, [("RUB", 90)]⟩)
        ⟨"GET", "/convert/" ++ "10.5" ++ "?" ++ "x=1", "HTTP/1.1", []⟩
      = handle_get_convert (ProviderBehavior.ok ⟨"USD", 1700000000, [("RUB", 90)]⟩)
          ⟨"GET", "/convert/" ++ "10.5" ++ "?" ++ "x=1", "HTTP/1.1", []⟩
          (PyFloat.finite (21 / 2)) :=
  have hp : pyParseFloat "10.5" = some (PyFloat.finite (21 / 2)) := by
    rw [show pyParseFloat "10.5"
        = some (PyFloat.finite ((10 : ℚ) + (5 : ℚ) / (10 : ℚ) ^ (1 : Nat))) from rfl]
    norm_num
  ⟨hp,
   C10_query_ignored_memoized.1 (ProviderBehavior.ok ⟨"USD", 1700000000, [("RUB", 90)]⟩)
     ⟨"GET", "/convert/" ++ "10.5" ++ "?" ++ "x=1", "HTTP/1.1", []⟩ "10.5" "x=1"
     (PyFloat.finite (21 / 2)) rfl rfl hp (by decide) (by decide) (by decide) (by decide)⟩
